import Mathlib

/-!
Verification development for the semantic job-matching backend.

The definitions below are a shallow embedding, function by function, of the
Python services under `app/services/`:

* `app/services/semantic_clustering/predict_service.py` — education/region
  filtering, the top-10 fallback, and the ensemble majority vote;
* `app/services/semantic_clustering/embedding_service.py` — the embedding
  gateway;
* `app/services/semantic_clustering/clustering_training_service.py` — the
  candidate-cluster-count loop and knee-based choice of the cluster count;
* `app/services/blob_service.py` — staging (`save_model_data`), promotion
  (`finalize_model_data_transfer`) and loading (`retrieve_model_data`) of an
  artifact bundle over an abstract blob store;
* `app/services/user_data_manager_service.py` — `add_prediction_result` and
  its duplicate check.

External collaborators (Azure blob storage, MongoDB, the OpenAI embedding
provider, the kneed `KneeLocator`, scikit-learn estimators) are modelled as
explicit state (a key/value store, a per-user list of records) or as oracle
parameters; the control flow, key construction, normalization and comparison
logic are translated directly from the source.
-/

namespace AlternanceBackend

/-! ### Python string primitives

`str.strip`, `str.lower` and `str.title` as used by the services.  `pyLower`
covers ASCII letters plus the accented uppercase letters occurring in this
codebase's string constants (Python's `str.lower` is full-Unicode; the
restriction is immaterial for the strings the services manipulate).
`pyTitle` follows Python `str.title`: a letter is uppercased when the
previous character is not a letter and lowercased otherwise. -/

def pyLowerChar (c : Char) : Char :=
  if c = 'Î' then 'î'
  else if c = 'À' then 'à'
  else if c = 'É' then 'é'
  else if c = 'È' then 'è'
  else if c = 'Ô' then 'ô'
  else if c = 'Û' then 'û'
  else if c = 'Ç' then 'ç'
  else c.toLower

def pyLower (s : String) : String := ⟨s.data.map pyLowerChar⟩

def pyStrip (s : String) : String :=
  ⟨((s.data.dropWhile Char.isWhitespace).reverse.dropWhile Char.isWhitespace).reverse⟩

def titleChars : Bool → List Char → List Char
  | _, [] => []
  | prevCased, c :: cs =>
    if c.isAlpha then
      (if prevCased then c.toLower else c.toUpper) :: titleChars true cs
    else
      c :: titleChars false cs

def pyTitle (s : String) : String := ⟨titleChars false s.data⟩

/-! ### predict_service.py : normalize_level and the education / region filters -/

/-- `Predict.normalize_level`: `level.strip().title()`. -/
def normalize_level (level : String) : String := pyTitle (pyStrip level)

/-- One row of the ranked job table as the FILTER stage of
`Predict.predict_cluster` sees it: only the `Level` and `Region` columns are
consulted (each may be absent, as `dict.get` allows), the rest of the row is
carried opaquely as `payload`. -/
structure JobRow where
  level? : Option String
  region? : Option String
  payload : Nat
  deriving DecidableEq, Repr

/-- The `LEVEL_HIERARCHY` dict of `predict_cluster`:
`{'Bac+2': 0, 'Bac+3': 1, 'Bac+4': 2, 'Master': 3}`, as a partial lookup. -/
def levelIndex (s : String) : Option Nat :=
  if s = "Bac+2" then some 0
  else if s = "Bac+3" then some 1
  else if s = "Bac+4" then some 2
  else if s = "Master" then some 3
  else none

/-- The per-job education predicate of the list comprehension in
`predict_cluster`:
`job.get('Level') == 'No level Required' or
 LEVEL_HIERARCHY.get(self.normalize_level(job.get('Level', '')), float('inf'))
   <= specified_level_index`
(`float('inf') <= idx` is always false, so an unrecognized level fails). -/
def eduPasses (specifiedLevelIndex : Nat) (job : JobRow) : Bool :=
  job.level? == some "No level Required" ||
    match levelIndex (normalize_level (job.level?.getD "")) with
    | some i => decide (i ≤ specifiedLevelIndex)
    | none => false

/-- The education-level filter block of `predict_cluster`
(`if education_level:` — Python truthiness, so `None` and `""` skip the
filter; an unrecognized requested level also leaves the list unchanged). -/
def educationFilter (educationLevel : Option String) (jobs : List JobRow) : List JobRow :=
  match educationLevel with
  | none => jobs
  | some lvl =>
    if lvl = "" then jobs
    else
      match levelIndex (normalize_level lvl) with
      | none => jobs
      | some idx => jobs.filter (eduPasses idx)

/-- The region filter block of `predict_cluster`
(`if city_for_filter:` then keep jobs with `job.get('Region') == city_for_filter`). -/
def cityFilter (cityForFilter : Option String) (jobs : List JobRow) : List JobRow :=
  match cityForFilter with
  | none => jobs
  | some city =>
    if city = "" then jobs
    else jobs.filter (fun job => job.region? == some city)

/-- The FILTER stage of `predict_cluster` from
`filtered_top_similar_jobs = top_similar_jobs[:20]` through the fallback
`if not filtered_top_similar_jobs: filtered_top_similar_jobs = top_similar_jobs[:10]`;
`topSimilarJobs` is the similarity-ranked list restricted to the majority
cluster, already sorted descending by similarity. -/
def filterStage (educationLevel cityForFilter : Option String)
    (topSimilarJobs : List JobRow) : List JobRow :=
  let filtered := cityFilter cityForFilter
    (educationFilter educationLevel (topSimilarJobs.take 20))
  if filtered.isEmpty then topSimilarJobs.take 10 else filtered

/-! ### predict_service.py : ensemble majority vote

`model_results` is a dict keyed by the roster names in their fixed iteration
order; `Counter(model_results.values()).most_common(1)[0][0]` counts the
votes in that order and, `sorted` being stable, returns the first-inserted
key among those with the maximal count. -/

/-- Keys of a `Counter` built from `votes`, in insertion order (the order of
first occurrence). -/
def firstSeenKeys : List Nat → List Nat
  | [] => []
  | v :: vs => v :: (firstSeenKeys vs).filter (fun k => k ≠ v)

/-- Fold step of `most_common(1)`: keep the current best key unless a later
key has a strictly greater count (stable sort keeps the earlier key on ties). -/
def pickMax (cnt : Nat → Nat) : Nat → List Nat → Nat
  | best, [] => best
  | best, k :: ks => pickMax cnt (if cnt best < cnt k then k else best) ks

/-- `Counter(votes).most_common(1)[0][0]`: the first-seen key of maximal
multiplicity (`none` only when there are no votes at all). -/
def majorityVote (votes : List Nat) : Option Nat :=
  match firstSeenKeys votes with
  | [] => none
  | k :: ks => some (pickMax (fun v => votes.count v) k ks)

/-- The fixed classifier roster, in the iteration order of the
`supervised_models` dict (`retrieve_model_data` inserts the names in this
order, and `ClusteringService.__init__` builds the same dict). -/
def supervisedRoster : List String :=
  ["RandomForest", "SVM", "LogisticRegression", "KNN", "GradientBoosting"]

/-- The votes of the ensemble: `model.predict(...)` for each roster member,
collected in roster order as `model_results.values()` is. -/
def modelVotes (predictOf : String → Nat) : List Nat :=
  supervisedRoster.map predictOf

/-- `majority_cluster = cluster_votes.most_common(1)[0][0]` over the roster. -/
def majorityCluster (predictOf : String → Nat) : Option Nat :=
  majorityVote (modelVotes predictOf)

/-! ### embedding_service.py : the embedding gateway

`OpenAIEmbeddingService.get_openai_embeddings` builds
`[self.embed_model.get_text_embedding(p) for p in paragraphs]` and wraps it
in `np.array`.  The provider is the oracle `provider`; one call is made per
paragraph, in input order, and the function has no input validation and no
raise path of its own — every input, the empty list included, returns
normally (`Except.ok`); the error side of the return type exists only to
state that fact. -/

abbrev Vec := List Int

def get_openai_embeddings (provider : String → Vec) (paragraphs : List String) :
    Except String (List Vec) :=
  .ok (paragraphs.map provider)

/-! ### blob_service.py : the blob store

Azure blob storage as a key/value map from blob paths to opaque byte
payloads.  `upload_blob_from_bytes` always overwrites (`overwrite=True`);
`download_blob_to_bytes` raises when the blob is absent, modelled as
`Except`; `delete_blob` is called by the services only on paths they just
downloaded successfully, so it is modelled as plain key removal. -/

abbrev Bytes := List Nat

abbrev Store := String → Option Bytes

def uploadBlobFromBytes (st : Store) (blobPath : String) (data : Bytes) : Store :=
  fun q => if q = blobPath then some data else st q

def downloadBlobToBytes (st : Store) (blobPath : String) : Except String Bytes :=
  match st blobPath with
  | some d => .ok d
  | none => .error "blob not found"

def deleteBlob (st : Store) (blobPath : String) : Store :=
  fun q => if q = blobPath then none else st q

/-- `f"temp/clustering_results/{platform}/{region}"`, the staging namespace
used by `save_model_data` and `finalize_model_data_transfer`. -/
def tempBasePath (platform region : String) : String :=
  "temp/clustering_results/" ++ platform ++ "/" ++ region

/-- `f"clustering_results/{platform}/{region}"`, the canonical namespace
used by `retrieve_model_data` and `finalize_model_data_transfer`. -/
def finalBasePath (platform region : String) : String :=
  "clustering_results/" ++ platform ++ "/" ++ region

def joinPath (base file : String) : String := base ++ "/" ++ file

/-- `f"{platform}_{region}.csv"`, the cleaned-corpus file name. -/
def csvFileName (platform region : String) : String :=
  platform ++ "_" ++ region ++ ".csv"

/-- The in-memory artifact bundle handed to `save_model_data` by the trainer
(`model_data` dict).  `α` is the type of in-memory member values; the
serializers (`joblib.dump`, `np.save`, `DataFrame.to_csv`) and their inverse
loaders are oracle parameters of the store operations. -/
structure ModelData (α : Type) where
  kmeans_model : α
  cluster_centers : α
  paragraph_embeddings : α
  labels : α
  data_cleaned : α
  supervised_models : List (String × α)
  deriving Repr

/-- `BlobService.save_model_data`: serialize and upload every bundle member
to the staging namespace, in source order (KMeans model, the three numpy
arrays in the order of the `['cluster_centers', 'paragraph_embeddings',
'labels']` loop, the cleaned CSV, then one upload per
`supervised_models` entry in dict order). -/
def save_model_data {α : Type} (encJoblib encNp encCsv : α → Bytes)
    (st : Store) (platform region : String) (md : ModelData α) : Store :=
  let base := tempBasePath platform region
  let st1 := uploadBlobFromBytes st (joinPath base "kmeans_model.pkl")
    (encJoblib md.kmeans_model)
  let st2 := uploadBlobFromBytes st1 (joinPath base "cluster_centers.npy")
    (encNp md.cluster_centers)
  let st3 := uploadBlobFromBytes st2 (joinPath base "paragraph_embeddings.npy")
    (encNp md.paragraph_embeddings)
  let st4 := uploadBlobFromBytes st3 (joinPath base "labels.npy")
    (encNp md.labels)
  let st5 := uploadBlobFromBytes st4 (joinPath base (csvFileName platform region))
    (encCsv md.data_cleaned)
  md.supervised_models.foldl
    (fun s nm => uploadBlobFromBytes s (joinPath base (nm.1 ++ "_model.pkl")) (encJoblib nm.2))
    st5

/-- The `files` dict of `finalize_model_data_transfer`, in its insertion
(and hence iteration) order: the KMeans pickle, the three numpy arrays, the
cleaned CSV, then one pickle per roster member. -/
def bundleFileNames (platform region : String) : List String :=
  ["kmeans_model.pkl", "cluster_centers.npy", "paragraph_embeddings.npy", "labels.npy",
   csvFileName platform region,
   "RandomForest_model.pkl", "SVM_model.pkl", "LogisticRegression_model.pkl",
   "KNN_model.pkl", "GradientBoosting_model.pkl"]

/-- One iteration of the per-file loop of `finalize_model_data_transfer`:
download the staged copy, upload it to the canonical path, delete the staged
copy; any failure (here: staged blob absent) is caught by the inner
`except`, logged, and the loop `continue`s with the store unchanged. -/
def promoteFile (tempBase finalBase : String) (st : Store) (file : String) : Store :=
  match st (joinPath tempBase file) with
  | some content =>
    deleteBlob (uploadBlobFromBytes st (joinPath finalBase file) content)
      (joinPath tempBase file)
  | none => st

/-- `BlobService.finalize_model_data_transfer`: promote the bundle file by
file.  Per-file failures are swallowed by the inner `except ... continue`,
and the function then reaches `return True` unconditionally; the outer
`except` (returning `False`) guards only the code outside the per-file loop,
which cannot fail in this model, so the reported flag is the constant
`true`. -/
def finalize_model_data_transfer (st : Store) (platform region : String) :
    Store × Bool :=
  let tempBase := tempBasePath platform region
  let finalBase := finalBasePath platform region
  ((bundleFileNames platform region).foldl (promoteFile tempBase finalBase) st, true)

/-- `BlobService.retrieve_model_data`: download and deserialize every bundle
member from the canonical namespace; any missing blob raises (propagates as
`Except.error`).  The supervised models are fetched for the five fixed
roster names, in roster order. -/
def retrieve_model_data {α : Type} (decJoblib decNp decCsv : Bytes → α)
    (st : Store) (platform region : String) : Except String (ModelData α) := do
  let base := finalBasePath platform region
  let kb ← downloadBlobToBytes st (joinPath base "kmeans_model.pkl")
  let cc ← downloadBlobToBytes st (joinPath base "cluster_centers.npy")
  let pe ← downloadBlobToBytes st (joinPath base "paragraph_embeddings.npy")
  let lb ← downloadBlobToBytes st (joinPath base "labels.npy")
  let cs ← downloadBlobToBytes st (joinPath base (csvFileName platform region))
  let rf ← downloadBlobToBytes st (joinPath base "RandomForest_model.pkl")
  let svm ← downloadBlobToBytes st (joinPath base "SVM_model.pkl")
  let lr ← downloadBlobToBytes st (joinPath base "LogisticRegression_model.pkl")
  let knn ← downloadBlobToBytes st (joinPath base "KNN_model.pkl")
  let gb ← downloadBlobToBytes st (joinPath base "GradientBoosting_model.pkl")
  .ok { kmeans_model := decJoblib kb, cluster_centers := decNp cc,
        paragraph_embeddings := decNp pe, labels := decNp lb,
        data_cleaned := decCsv cs,
        supervised_models :=
          [("RandomForest", decJoblib rf), ("SVM", decJoblib svm),
           ("LogisticRegression", decJoblib lr), ("KNN", decJoblib knn),
           ("GradientBoosting", decJoblib gb)] }

/-! ### clustering_training_service.py : candidate counts and the knee choice -/

/-- The candidate cluster counts evaluated by the WCSS loop:
`range(1, max_clusters + 1)` with `max_clusters = min(10, len(paragraphs))`. -/
def candidateCounts (n : Nat) : List Nat := List.range' 1 (min 10 n)

/-- `optimal_clusters = knee_locator.knee if knee_locator.knee else 3`
(Python truthiness: both `None` and `0` fall back to `3`). -/
def chooseClusters : Option Nat → Nat
  | some k => if k = 0 then 3 else k
  | none => 3

/-- The chosen cluster count of `process_clustering` for a corpus of `n`
usable postings; `kneeDetect` is the `KneeLocator` oracle applied to the
candidate range (with the WCSS values it computes from the fitted models). -/
def optimalClusters (kneeDetect : List Nat → Option Nat) (n : Nat) : Nat :=
  chooseClusters (kneeDetect (candidateCounts n))

/-- One row of the per-(platform, region) CSV as the trainer sees it: only
the `Summary` column matters (absent models a NaN dropped by
`dropna(subset=['Summary'])`). -/
structure CsvRow where
  summary? : Option String
  deriving DecidableEq, Repr

/-- Failure modes of one (platform, region) iteration of
`process_clustering`.  `emptyCorpus` is modelled from the spec: the spec
names an `EmptyCorpusError` for a corpus with zero usable postings, but no
such class and no such check exist anywhere in the code; the constructor is
declared only so that its absence from every code path can be stated.
`unboundClusterCenters` is the Python `NameError` raised by
`logger.info(f"cluster_centers : {cluster_centers}")` when the WCSS loop ran
zero iterations and `cluster_centers` was never assigned. -/
inductive PipeError where
  | emptyCorpus
  | unboundClusterCenters
  | embeddingFailure (msg : String)
  deriving DecidableEq, Repr

structure PipeResult where
  optimal_clusters : Nat
  labels : List Nat
  deriving DecidableEq, Repr

/-- One (platform, region) iteration of `ClusteringService.process_clustering`
after the CSV is loaded: drop rows with a missing `Summary`, clean, call the
embedding gateway on the cleaned texts, run the WCSS loop over the candidate
counts (zero iterations leave `cluster_centers` unbound, so the logging line
that follows the loop raises `NameError`), pick the cluster count from the
knee, and fit the final model (`fitLabels`, a KMeans oracle mapping the
chosen count and corpus size to the label assignment). -/
def processClusteringOne (cleanText : String → String) (provider : String → Vec)
    (kneeDetect : List Nat → Option Nat) (fitLabels : Nat → Nat → List Nat)
    (rows : List CsvRow) : Except PipeError PipeResult :=
  let data_cleaned := rows.filter (fun r => r.summary?.isSome)
  let paragraphs := data_cleaned.map (fun r => cleanText (r.summary?.getD ""))
  match get_openai_embeddings provider paragraphs with
  | .error e => .error (.embeddingFailure e)
  | .ok _embeddings =>
    if (candidateCounts paragraphs.length).isEmpty then
      .error .unboundClusterCenters
    else
      let k := optimalClusters kneeDetect paragraphs.length
      .ok { optimal_clusters := k, labels := fitLabels k paragraphs.length }

/-! ### user_data_manager_service.py : add_prediction_result -/

/-- The local `normalize` of `add_prediction_result`:
`value.strip().lower() if value else None` — `None` and the empty string
(both falsy) map to `None`, everything else is stripped and lowercased. -/
def pyNormalize : Option String → Option String
  | none => none
  | some s => if s = "" then none else some (pyLower (pyStrip s))

/-- The `city_mapping` dict of `add_prediction_result`. -/
def cityMapping (key : String) : Option String :=
  if key = "ile_de_france" then some "Île-de-France"
  else if key = "hauts_de_france" then some "Hauts-de-France"
  else if key = "alpes_cote_dazur" then some "Côte d\x27Azur"
  else if key = "Others" then some "Autres régions"
  else none

/-- The incoming `normalized_city_for_filter` after the
`if normalized_city_for_filter in city_mapping:` remap.  Note the remap is
applied only to the incoming value, never to the stored one. -/
def normalizedCityForFilter (city_for_filter : Option String) : Option String :=
  match pyNormalize city_for_filter with
  | none => none
  | some c =>
    match cityMapping c with
    | some mapped => pyNormalize (some mapped)
    | none => some c

/-- One stored entry of a user's `results_prediction` array, restricted to
the fields `add_prediction_result` writes and later reads back
(`predict_jobs` keeps only the projected job fields; they ride along as
`JobRow`s here).  `filename` and `textSummary` are written only when not
`None`, which coincides with `dict.get` returning `None` for an absent key. -/
structure PredRecord where
  typedeSummary : String
  platform : String
  region : String
  city_for_filter : Option String
  education_level : Option String
  filename : Option String
  textSummary : Option String
  predict_jobs : List JobRow
  deriving DecidableEq, Repr

/-- The duplicate test of the `for prediction in user_data["results_prediction"]`
loop: all three normalized fields must match (platform, region and the
submitted text take no part in it). -/
def isSimilarPrediction (nSum nCity nFile : Option String) (p : PredRecord) : Bool :=
  pyNormalize (some p.typedeSummary) == nSum &&
  pyNormalize p.city_for_filter == nCity &&
  pyNormalize p.filename == nFile

/-- `UserDataManager.add_prediction_result` acting on one user's
`results_prediction` list.  A duplicate raises
(`Exception("A similar prediction already exists ...")`); a document-store
failure on the final `update_one` (the `errors.PyMongoError` branch,
injected here through `pushFails`) also raises; otherwise the new record is
appended (`$push`). -/
def add_prediction_result (pushFails : Bool) (results : List PredRecord)
    (platform region : String) (prediction_results : List JobRow)
    (summary_type : String) (filename : Option String) (text_summary : Option String)
    (city_for_filter : Option String) (education_level : Option String) :
    Except String (List PredRecord) :=
  let nSum := pyNormalize (some summary_type)
  let nCity := normalizedCityForFilter city_for_filter
  let nFile := pyNormalize filename
  if results.any (isSimilarPrediction nSum nCity nFile) then
    .error "A similar prediction already exists based on the current criteria."
  else if pushFails then
    .error "Failed to add prediction result"
  else
    .ok (results ++
      [{ typedeSummary := summary_type, platform := platform,
         region := region, city_for_filter := city_for_filter,
         education_level := education_level, filename := filename,
         textSummary := text_summary, predict_jobs := prediction_results }])

/-- The response dict built at the end of `Predict.predict_cluster`. -/
structure PredictResponse where
  majority : Nat
  top_similar_jobs : List JobRow
  deriving DecidableEq, Repr

/-- The PERSIST tail of `Predict.predict_cluster`: the call to
`add_prediction_result` sits in a `try/except Exception` that logs and
swallows every failure, and the response is built afterwards from the
majority cluster and the filtered job list alone. -/
def predictPersistAndRespond (pushFails : Bool) (results : List PredRecord)
    (platform region : String) (majority_cluster : Nat)
    (filtered_top_similar_jobs : List JobRow) (typedeSummary : String)
    (filename : Option String) (text_summary : Option String)
    (city_for_filter education_level : Option String) :
    List PredRecord × PredictResponse :=
  let db :=
    match add_prediction_result pushFails results platform region
        filtered_top_similar_jobs typedeSummary filename text_summary
        city_for_filter education_level with
    | .ok newResults => newResults
    | .error _ => results
  (db, { majority := majority_cluster, top_similar_jobs := filtered_top_similar_jobs })

/-! ### Concrete instances used by witnesses and counterexamples -/

/-- The empty blob store. -/
def emptyStore : Store := fun _ => none

/-- A classifier-prediction oracle whose roster votes are `[0, 0, 1, 1, 1]`. -/
def exampleVotePredict (name : String) : Nat :=
  if name = "RandomForest" || name = "SVM" then 0 else 1

/-- Fifteen ranked postings all tagged `Master`, exercising the filter fallback. -/
def fallbackJobs : List JobRow :=
  (List.range 15).map (fun i => { level? := some "Master", region? := none, payload := i })

def jobBac4 : JobRow := { level? := some "Bac+4", region? := none, payload := 0 }

def jobNoLevel : JobRow := { level? := some "No level Required", region? := none, payload := 1 }

def jobPhd : JobRow := { level? := some "PhD", region? := none, payload := 2 }

def demoJobs : List JobRow := [jobBac4]

/-- The record persisted by a first demo submission (filename `a.pdf`). -/
def demoRec1 : PredRecord :=
  { typedeSummary := "cv", platform := "linkedin", region := "france",
    city_for_filter := none, education_level := none, filename := some "a.pdf",
    textSummary := some "candidate text", predict_jobs := demoJobs }

/-- The record persisted by a second demo submission differing only in its
filename (`b.pdf`); platform, region and the submitted text are identical. -/
def demoRec2 : PredRecord :=
  { demoRec1 with filename := some "b.pdf" }

/-- A demo artifact bundle with `Bytes`-valued members (identity codecs). -/
def mdDemo : ModelData Bytes :=
  { kmeans_model := [1], cluster_centers := [2], paragraph_embeddings := [3],
    labels := [4], data_cleaned := [5],
    supervised_models :=
      [("RandomForest", [6]), ("SVM", [7]), ("LogisticRegression", [8]),
       ("KNN", [9]), ("GradientBoosting", [10])] }

/-! ## Theorems -/

/-! ### Majority vote (predict_service.py) -/

theorem mem_of_mem_firstSeenKeys {k : Nat} :
    ∀ {l : List Nat}, k ∈ firstSeenKeys l → k ∈ l := by
  intro l
  induction l with
  | nil => intro h; exact absurd h (by simp [firstSeenKeys])
  | cons v vs ih =>
    intro h
    rcases List.mem_cons.mp h with h | h
    · exact h ▸ List.mem_cons_self v vs
    · exact List.mem_cons_of_mem v (ih (List.mem_of_mem_filter h))

theorem mem_firstSeenKeys_of_mem {k : Nat} :
    ∀ {l : List Nat}, k ∈ l → k ∈ firstSeenKeys l := by
  intro l
  induction l with
  | nil => intro h; exact absurd h (by simp)
  | cons v vs ih =>
    intro h
    rcases List.mem_cons.mp h with h | h
    · exact h ▸ List.mem_cons_self v _
    · by_cases hkv : k = v
      · exact hkv ▸ List.mem_cons_self v _
      · exact List.mem_cons_of_mem v (List.mem_filter.mpr ⟨ih h, by simpa using hkv⟩)

theorem pickMax_spec (cnt : Nat → Nat) :
    ∀ (ks : List Nat) (best : Nat),
      cnt best ≤ cnt (pickMax cnt best ks) ∧
      (∀ k ∈ ks, cnt k ≤ cnt (pickMax cnt best ks)) ∧
      (best :: ks).find? (fun k => cnt k == cnt (pickMax cnt best ks))
        = some (pickMax cnt best ks) := by
  intro ks
  induction ks with
  | nil =>
    intro best
    exact ⟨Nat.le_refl _, by simp, by simp [pickMax]⟩
  | cons a as ih =>
    intro best
    by_cases hlt : cnt best < cnt a
    · have hbest2 : pickMax cnt best (a :: as) = pickMax cnt a as := by
        simp [pickMax, if_pos hlt]
      obtain ⟨ih1, ih2, ih3⟩ := ih a
      rw [hbest2]
      refine ⟨Nat.le_trans (Nat.le_of_lt hlt) ih1, ?_, ?_⟩
      · intro k hk
        rcases List.mem_cons.mp hk with hk | hk
        · exact hk ▸ ih1
        · exact ih2 k hk
      · have hne : ¬((fun k => cnt k == cnt (pickMax cnt a as)) best) = true := by
          simp only [beq_iff_eq]
          exact Nat.ne_of_lt (Nat.lt_of_lt_of_le hlt ih1)
        rw [List.find?_cons_of_neg (p := fun k => cnt k == cnt (pickMax cnt a as)) _ hne]
        exact ih3
    · have hbest2 : pickMax cnt best (a :: as) = pickMax cnt best as := by
        simp [pickMax, if_neg hlt]
      have hale : cnt a ≤ cnt best := Nat.le_of_not_lt hlt
      obtain ⟨ih1, ih2, ih3⟩ := ih best
      rw [hbest2]
      refine ⟨ih1, ?_, ?_⟩
      · intro k hk
        rcases List.mem_cons.mp hk with hk | hk
        · exact hk ▸ Nat.le_trans hale ih1
        · exact ih2 k hk
      · by_cases hb : ((fun k => cnt k == cnt (pickMax cnt best as)) best) = true
        · rw [List.find?_cons_of_pos (p := fun k => cnt k == cnt (pickMax cnt best as)) _ hb]
            at ih3 ⊢
          exact ih3
        · have ha : ¬((fun k => cnt k == cnt (pickMax cnt best as)) a) = true := by
            simp only [beq_iff_eq] at hb ⊢
            intro haeq
            exact hb (Nat.le_antisymm ih1 (haeq ▸ hale))
          rw [List.find?_cons_of_neg (p := fun k => cnt k == cnt (pickMax cnt best as)) _ hb]
            at ih3
          rw [List.find?_cons_of_neg (p := fun k => cnt k == cnt (pickMax cnt best as)) _ hb,
            List.find?_cons_of_neg (p := fun k => cnt k == cnt (pickMax cnt best as)) _ ha]
          exact ih3

theorem majorityVote_spec (votes : List Nat) (hne : votes ≠ []) :
    ∃ w, majorityVote votes = some w ∧ w ∈ votes ∧
      (∀ v : Nat, votes.count v ≤ votes.count w) ∧
      (firstSeenKeys votes).find? (fun k => votes.count k == votes.count w)
        = some w := by
  obtain ⟨v, vs, rfl⟩ := List.exists_cons_of_ne_nil hne
  have hfsk : firstSeenKeys (v :: vs)
      = v :: (firstSeenKeys vs).filter (fun k => k ≠ v) := rfl
  set ks := (firstSeenKeys vs).filter (fun k => k ≠ v) with hks
  obtain ⟨h1, h2, h3⟩ := pickMax_spec (fun x => (v :: vs).count x) ks v
  refine ⟨pickMax (fun x => (v :: vs).count x) v ks, rfl, ?_, ?_, ?_⟩
  · have hmem : pickMax (fun x => (v :: vs).count x) v ks ∈ v :: ks :=
      List.mem_of_find?_eq_some h3
    exact mem_of_mem_firstSeenKeys (hfsk ▸ hmem)
  · intro v0
    by_cases hv0 : v0 ∈ v :: vs
    · have : v0 ∈ v :: ks := hfsk ▸ mem_firstSeenKeys_of_mem hv0
      rcases List.mem_cons.mp this with h | h
      · exact h ▸ h1
      · exact h2 v0 h
    · have : (v :: vs).count v0 = 0 := List.count_eq_zero.mpr hv0
      rw [this]
      exact Nat.zero_le _
  · rw [hfsk]
    exact h3

/-- C5: the ensemble vote picks a cluster id with the greatest number of
votes among the roster's predictions, ties going to the id first seen in the
roster's fixed iteration order (the first key of maximal count in the
`Counter`'s insertion order); and the concrete vote multiset [0, 0, 1, 1, 1]
elects cluster 1. -/
theorem ensemble_majority_vote :
    (∀ predictOf : String → Nat, ∃ w, majorityCluster predictOf = some w ∧
        w ∈ modelVotes predictOf ∧
        (∀ v : Nat, (modelVotes predictOf).count v ≤ (modelVotes predictOf).count w) ∧
        (firstSeenKeys (modelVotes predictOf)).find?
            (fun k => (modelVotes predictOf).count k == (modelVotes predictOf).count w)
          = some w) ∧
    majorityCluster exampleVotePredict = some 1 := by
  constructor
  · intro predictOf
    simpa [majorityCluster] using
      majorityVote_spec (modelVotes predictOf) (by simp [modelVotes, supervisedRoster])
  · decide

/-! ### Filter fallback (predict_service.py) -/

/-- C3: when the education and region filters empty the (pre-truncated)
ranked list, the FILTER stage returns the unfiltered top 10 of the
similarity-ranked list, which is non-empty whenever the ranked list is. -/
theorem filter_fallback_top10 (educationLevel cityForFilter : Option String)
    (jobs : List JobRow)
    (hall : cityFilter cityForFilter (educationFilter educationLevel (jobs.take 20)) = [])
    (hne : jobs ≠ []) :
    filterStage educationLevel cityForFilter jobs = jobs.take 10 ∧
    filterStage educationLevel cityForFilter jobs ≠ [] := by
  have h1 : filterStage educationLevel cityForFilter jobs = jobs.take 10 := by
    simp [filterStage, hall]
  refine ⟨h1, ?_⟩
  rw [h1]
  simp [List.take_eq_nil_iff, hne]

/-- C3 witness: fifteen `Master`-tagged postings are all removed by the
`Bac+2` education filter and the stage falls back to the top 10. -/
theorem filter_fallback_top10_witness :
    cityFilter none (educationFilter (some "Bac+2") (fallbackJobs.take 20)) = [] ∧
    fallbackJobs ≠ [] ∧
    filterStage (some "Bac+2") none fallbackJobs = fallbackJobs.take 10 ∧
    filterStage (some "Bac+2") none fallbackJobs ≠ [] :=
  ⟨by decide, by decide,
   (filter_fallback_top10 (some "Bac+2") none fallbackJobs (by decide) (by decide)).1,
   (filter_fallback_top10 (some "Bac+2") none fallbackJobs (by decide) (by decide)).2⟩

/-! ### Embedding gateway (embedding_service.py) -/

/-- C9 counterexample: the gateway does not reject the empty input — there is
no validation and no raise path in `get_openai_embeddings`, so the empty
list returns normally with an empty matrix (the `ValueError` the spec
attributes to the gateway is in fact raised by its caller,
`predict_cluster`, on seeing the empty result). -/
theorem embed_empty_returns_ok :
    get_openai_embeddings (fun _ => ([] : Vec)) [] = .ok [] := rfl

/-- C9 amended: `get_openai_embeddings` never fails; on every input it
returns one row per input text, in input order, and the empty input yields
the empty matrix (zero provider calls) rather than an error. -/
theorem embedding_gateway_contract (provider : String → Vec) (texts : List String) :
    ∃ rows, get_openai_embeddings provider texts = .ok rows ∧
      rows.length = texts.length ∧
      (∀ i : Nat, rows[i]? = (texts[i]?).map provider) ∧
      (texts = [] → rows = []) := by
  refine ⟨texts.map provider, rfl, by simp, ?_, ?_⟩
  · intro i
    exact List.getElem?_map provider texts i
  · rintro rfl
    rfl

/-- C9 witness for the amended claim, at a concrete provider and two texts. -/
theorem embedding_gateway_contract_witness :
    ∃ rows, get_openai_embeddings (fun s => [(s.length : Int)]) ["a", "bc"] = .ok rows ∧
      rows.length = (["a", "bc"] : List String).length ∧
      (∀ i : Nat,
        rows[i]? = ((["a", "bc"] : List String)[i]?).map (fun s => [(s.length : Int)])) ∧
      ((["a", "bc"] : List String) = [] → rows = []) :=
  embedding_gateway_contract (fun s => [(s.length : Int)]) ["a", "bc"]

/-! ### Persistence isolation (predict_service.py / user_data_manager_service.py) -/

/-- C10: the PERSIST stage never changes the response — `predict_cluster`
returns the majority cluster and the filtered ranking whatever
`add_prediction_result` does, and when persistence fails (duplicate or
document-store error) the stored results are left untouched. -/
theorem persist_failure_isolated (pushFails : Bool) (results : List PredRecord)
    (platform region : String) (majority : Nat) (ranked : List JobRow)
    (summaryType : String) (filename textSummary cityForFilter educationLevel : Option String) :
    (predictPersistAndRespond pushFails results platform region majority ranked
        summaryType filename textSummary cityForFilter educationLevel).2
      = { majority := majority, top_similar_jobs := ranked } ∧
    (∀ msg, add_prediction_result pushFails results platform region ranked
        summaryType filename textSummary cityForFilter educationLevel = .error msg →
      (predictPersistAndRespond pushFails results platform region majority ranked
          summaryType filename textSummary cityForFilter educationLevel).1 = results) := by
  constructor
  · rfl
  · intro msg hmsg
    simp [predictPersistAndRespond, hmsg]

/-- C10 witness: with a failing document store (`pushFails = true`) the
response is still the majority cluster and ranking, and nothing is stored. -/
theorem persist_failure_isolated_witness :
    (predictPersistAndRespond true [] "linkedin" "france" 1 demoJobs "cv"
        none none none none).2
      = { majority := 1, top_similar_jobs := demoJobs } ∧
    (predictPersistAndRespond true [] "linkedin" "france" 1 demoJobs "cv"
        none none none none).1 = [] :=
  ⟨(persist_failure_isolated true [] "linkedin" "france" 1 demoJobs "cv"
      none none none none).1,
   (persist_failure_isolated true [] "linkedin" "france" 1 demoJobs "cv"
      none none none none).2 "Failed to add prediction result" rfl⟩

/-! ### Education filter semantics (predict_service.py) -/

/-- C4: with a requested level on the ordinal scale, the per-posting
education predicate passes the exact tag `No level Required`
unconditionally; otherwise it passes a posting exactly when its normalized
level sits at or below the requested level's index on the scale
`Bac+2 < Bac+3 < Bac+4 < Master` (indices 0 < 1 < 2 < 3); a posting whose
level tag does not normalize onto the scale, or is absent, is always
filtered out; and with a recognized requested level the filter block is
exactly the filter by this predicate. -/
theorem education_level_filter (requested : String) (ridx : Nat)
    (hreq : levelIndex (normalize_level requested) = some ridx) :
    (∀ job : JobRow, job.level? = some "No level Required" → eduPasses ridx job = true) ∧
    (∀ (job : JobRow) (t : String) (i : Nat), job.level? = some t →
        levelIndex (normalize_level t) = some i →
        (eduPasses ridx job = true ↔ i ≤ ridx)) ∧
    (∀ (job : JobRow) (t : String), job.level? = some t → t ≠ "No level Required" →
        levelIndex (normalize_level t) = none → eduPasses ridx job = false) ∧
    (∀ job : JobRow, job.level? = none → eduPasses ridx job = false) ∧
    (∀ jobs : List JobRow,
        educationFilter (some requested) jobs = jobs.filter (eduPasses ridx)) ∧
    levelIndex "Bac+2" = some 0 ∧ levelIndex "Bac+3" = some 1 ∧
    levelIndex "Bac+4" = some 2 ∧ levelIndex "Master" = some 3 := by
  refine ⟨?_, ?_, ?_, ?_, ?_, by decide, by decide, by decide, by decide⟩
  · intro job hjob
    simp [eduPasses, hjob]
  · intro job t i hjob hi
    have ht : t ≠ "No level Required" := by
      rintro rfl
      rw [show normalize_level "No level Required" = "No Level Required" from by decide,
        show levelIndex "No Level Required" = none from by decide] at hi
      cases hi
    simp [eduPasses, hjob, hi, ht]
  · intro job t hjob ht hnone
    simp [eduPasses, hjob, hnone, ht]
  · intro job hjob
    simp [eduPasses, hjob, show levelIndex (normalize_level "") = none from by decide]
  · intro jobs
    have hne : requested ≠ "" := by
      rintro rfl
      rw [show levelIndex (normalize_level "") = none from by decide] at hreq
      cases hreq
    simp [educationFilter, hne, hreq]

/-- C4 witness: `Bac+4` is included under requested `Master`, excluded under
requested `Bac+3`; `No level Required` always passes; the unrecognized tag
`PhD` is filtered out. -/
theorem education_level_filter_witness :
    eduPasses 3 jobBac4 = true ∧ eduPasses 1 jobBac4 = false ∧
    eduPasses 1 jobNoLevel = true ∧ eduPasses 3 jobPhd = false := by
  have hm := education_level_filter "Master" 3 (by decide)
  have hb3 := education_level_filter "Bac+3" 1 (by decide)
  refine ⟨?_, ?_, ?_, ?_⟩
  · exact (hm.2.1 jobBac4 "Bac+4" 2 rfl (by decide)).mpr (by decide)
  · have h := hb3.2.1 jobBac4 "Bac+4" 2 rfl (by decide)
    cases heq : eduPasses 1 jobBac4
    · rfl
    · exact absurd (h.mp heq) (by decide)
  · exact hb3.1 jobNoLevel rfl
  · exact hm.2.2.1 jobPhd "PhD" rfl (by decide) (by decide)

/-! ### Cluster-count choice (clustering_training_service.py) -/

/-- C6 counterexample: with two usable postings the evaluated range is 1..2,
yet when the knee detector finds no knee the chosen count is the default 3,
exceeding the evaluated range — the claimed bound `chosen ≤ min(10, n)`
fails. -/
theorem cluster_count_exceeds_range :
    optimalClusters (fun _ => none) 2 = 3 ∧ min 10 2 = 2 ∧
    ¬(optimalClusters (fun _ => none) 2 ≤ min 10 2) := by decide

/-- C6 amended: the candidate counts are exactly 1..min(10, n); the chosen
count is the detected knee when one is detected (hence inside the evaluated
range) and the default 3 otherwise; it is always ≥ 1, is ≤ min(10, n)
whenever a knee is detected, and in general is only bounded by
max 3 (min 10 n) — the no-knee default 3 may exceed the evaluated range when
min(10, n) < 3. -/
theorem cluster_count_choice (kneeDetect : List Nat → Option Nat) (n : Nat)
    (hknee : ∀ k, kneeDetect (candidateCounts n) = some k → k ∈ candidateCounts n) :
    (∀ k, k ∈ candidateCounts n ↔ 1 ≤ k ∧ k ≤ min 10 n) ∧
    1 ≤ optimalClusters kneeDetect n ∧
    (∀ k, kneeDetect (candidateCounts n) = some k →
        optimalClusters kneeDetect n = k ∧ optimalClusters kneeDetect n ≤ min 10 n) ∧
    (kneeDetect (candidateCounts n) = none → optimalClusters kneeDetect n = 3) ∧
    optimalClusters kneeDetect n ≤ max 3 (min 10 n) := by
  have hmem : ∀ k, k ∈ candidateCounts n ↔ 1 ≤ k ∧ k ≤ min 10 n := by
    intro k
    rw [candidateCounts, List.mem_range'_1]
    omega
  have hsome : ∀ k, kneeDetect (candidateCounts n) = some k →
      optimalClusters kneeDetect n = k ∧ optimalClusters kneeDetect n ≤ min 10 n := by
    intro k hk
    obtain ⟨h1, h2⟩ := (hmem k).mp (hknee k hk)
    have hk0 : ¬(k = 0) := by omega
    constructor
    · simp [optimalClusters, hk, chooseClusters, hk0]
    · simpa [optimalClusters, hk, chooseClusters, hk0] using h2
  have hnone : kneeDetect (candidateCounts n) = none →
      optimalClusters kneeDetect n = 3 := by
    intro hk
    simp [optimalClusters, hk, chooseClusters]
  refine ⟨hmem, ?_, hsome, hnone, ?_⟩
  · cases hk : kneeDetect (candidateCounts n) with
    | none => rw [hnone hk]; omega
    | some k =>
      obtain ⟨heq, _⟩ := hsome k hk
      obtain ⟨h1, _⟩ := (hmem k).mp (hknee k hk)
      omega
  · cases hk : kneeDetect (candidateCounts n) with
    | none => rw [hnone hk]; omega
    | some k =>
      obtain ⟨heq, hle⟩ := hsome k hk
      omega

/-- C6 witness: a detector reporting a knee at 2 over a corpus of 5. -/
theorem cluster_count_choice_witness :
    (2 ∈ candidateCounts 5 ↔ 1 ≤ 2 ∧ 2 ≤ min 10 5) ∧
    1 ≤ optimalClusters (fun _ => some 2) 5 ∧
    optimalClusters (fun _ => some 2) 5 = 2 ∧
    optimalClusters (fun _ => some 2) 5 ≤ min 10 5 := by
  have h := cluster_count_choice (fun _ => some 2) 5 (by
    intro k hk
    simp only [Option.some.injEq] at hk
    subst hk
    decide)
  exact ⟨h.1 2, h.2.1, (h.2.2.1 2 rfl).1, (h.2.2.1 2 rfl).2⟩

/-! ### Empty corpus behavior (clustering_training_service.py) -/

/-- C7 counterexample: a two-row corpus with both descriptions missing does
not yield any `EmptyCorpusError` — no such error exists in the code; the
pipeline instead reaches the post-loop logging statement with
`cluster_centers` unbound and fails with a `NameError`. -/
theorem empty_corpus_no_emptyCorpusError :
    processClusteringOne id (fun _ => ([0] : Vec)) (fun _ => none) (fun _ _ => [])
        [⟨none⟩, ⟨none⟩] = .error .unboundClusterCenters ∧
    (Except.error PipeError.unboundClusterCenters : Except PipeError PipeResult)
      ≠ .error .emptyCorpus := ⟨rfl, by simp⟩

/-- C7 amended: on a corpus whose every posting lacks a description, the
drop-missing step leaves zero usable postings, the embedding gateway is
still invoked (with the empty list, hence zero provider calls), the WCSS
loop runs zero iterations, and the per-pair pipeline fails with the unbound
`cluster_centers` reference (`NameError`) — not with an `EmptyCorpusError`. -/
theorem empty_corpus_pipeline (cleanText : String → String) (provider : String → Vec)
    (kneeDetect : List Nat → Option Nat) (fitLabels : Nat → Nat → List Nat)
    (rows : List CsvRow) (hmiss : ∀ r ∈ rows, r.summary? = none) :
    rows.filter (fun r => r.summary?.isSome) = [] ∧
    processClusteringOne cleanText provider kneeDetect fitLabels rows
      = .error .unboundClusterCenters := by
  have hfil : rows.filter (fun r => r.summary?.isSome) = [] := by
    rw [List.filter_eq_nil_iff]
    intro r hr
    simp [hmiss r hr]
  refine ⟨hfil, ?_⟩
  simp [processClusteringOne, hfil, get_openai_embeddings, candidateCounts]

/-- C7 witness for the amended claim, at a one-row all-missing corpus. -/
theorem empty_corpus_pipeline_witness :
    ([⟨none⟩] : List CsvRow).filter (fun r => r.summary?.isSome) = [] ∧
    processClusteringOne id (fun _ => ([] : Vec)) (fun _ => some 2) (fun _ _ => [])
        [⟨none⟩] = .error .unboundClusterCenters :=
  empty_corpus_pipeline id (fun _ => []) (fun _ => some 2) (fun _ _ => []) [⟨none⟩]
    (by decide)

/-! ### Promotion success reporting (blob_service.py) -/

/-- C1 counterexample: promoting from an empty staging area fails for every
file of the bundle, yet `finalize_model_data_transfer` still reports
success and the canonical area stays empty — the reported result is not the
conjunction of the per-file promotion results. -/
theorem promote_success_despite_failures :
    (finalize_model_data_transfer emptyStore "linkedin" "france").2 = true ∧
    (finalize_model_data_transfer emptyStore "linkedin" "france").1
        (joinPath (finalBasePath "linkedin" "france") "kmeans_model.pkl") = none ∧
    emptyStore (joinPath (tempBasePath "linkedin" "france") "kmeans_model.pkl") = none :=
  ⟨rfl, rfl, rfl⟩

theorem foldl_promoteFile_skip (tb fb : String) :
    ∀ (files : List String) (st : Store),
      (∀ f ∈ files, st (joinPath tb f) = none) →
      files.foldl (promoteFile tb fb) st = st := by
  intro files
  induction files with
  | nil => intro st _; rfl
  | cons g gs ih =>
    intro st h
    have hg : promoteFile tb fb st g = st := by
      simp [promoteFile, h g (List.mem_cons_self g gs)]
    rw [List.foldl_cons, hg]
    exact ih st (fun f hf => h f (List.mem_cons_of_mem g hf))

/-- C1 amended: `finalize_model_data_transfer` reports success
unconditionally — each per-file failure is logged and skipped and the
returned flag is `true` for every store; in particular, when every staged
file is missing the promotion changes nothing and still reports success. -/
theorem promote_always_reports_success (st : Store) (platform region : String) :
    (finalize_model_data_transfer st platform region).2 = true ∧
    ((∀ f ∈ bundleFileNames platform region,
        st (joinPath (tempBasePath platform region) f) = none) →
      (finalize_model_data_transfer st platform region).1 = st) := by
  refine ⟨rfl, ?_⟩
  intro h
  exact foldl_promoteFile_skip (tempBasePath platform region)
    (finalBasePath platform region) (bundleFileNames platform region) st h

/-- C1 witness for the amended claim, on the empty store. -/
theorem promote_always_reports_success_witness :
    (finalize_model_data_transfer emptyStore "apec" "france").2 = true ∧
    (finalize_model_data_transfer emptyStore "apec" "france").1 = emptyStore :=
  ⟨(promote_always_reports_success emptyStore "apec" "france").1,
   (promote_always_reports_success emptyStore "apec" "france").2 (fun f hf => rfl)⟩

/-! ### Prediction de-duplication (user_data_manager_service.py) -/

/-- C2 counterexample: two submissions by the same user with identical
platform, region and submitted text (hence an identical provenance content
hash) but different filenames are both persisted — the duplicate check
compares only (summary type, city filter, filename), so the second
submission is appended rather than being a no-op. -/
theorem dedup_key_ignores_content :
    add_prediction_result false [] "linkedin" "france" demoJobs "cv" (some "a.pdf")
        (some "candidate text") none none = .ok [demoRec1] ∧
    add_prediction_result false [demoRec1] "linkedin" "france" demoJobs "cv" (some "b.pdf")
        (some "candidate text") none none = .ok [demoRec1, demoRec2] := ⟨rfl, rfl⟩

/-- C2 amended: the de-duplication key is the normalized triple
(summary type, city filter, filename) — not platform, region or a content
hash.  When a stored prediction matches the incoming triple,
`add_prediction_result` raises and stores nothing; the caller swallows the
error, leaves the stored list unchanged and still returns the ranked
results. -/
theorem dedup_triple_rejects (pushFails : Bool) (results : List PredRecord)
    (platform region : String) (jobs : List JobRow) (majority : Nat)
    (summaryType : String) (filename textSummary cityForFilter educationLevel : Option String)
    (hdup : ∃ p ∈ results,
      isSimilarPrediction (pyNormalize (some summaryType))
        (normalizedCityForFilter cityForFilter) (pyNormalize filename) p = true) :
    add_prediction_result pushFails results platform region jobs summaryType
        filename textSummary cityForFilter educationLevel
      = .error "A similar prediction already exists based on the current criteria." ∧
    predictPersistAndRespond pushFails results platform region majority jobs summaryType
        filename textSummary cityForFilter educationLevel
      = (results, { majority := majority, top_similar_jobs := jobs }) := by
  have hany : results.any (isSimilarPrediction (pyNormalize (some summaryType))
      (normalizedCityForFilter cityForFilter) (pyNormalize filename)) = true := by
    rw [List.any_eq_true]
    obtain ⟨p, hp, hsim⟩ := hdup
    exact ⟨p, hp, hsim⟩
  have herr : add_prediction_result pushFails results platform region jobs summaryType
      filename textSummary cityForFilter educationLevel
      = .error "A similar prediction already exists based on the current criteria." := by
    simp [add_prediction_result, hany]
  exact ⟨herr, by simp [predictPersistAndRespond, herr]⟩

/-- C2 witness for the amended claim: resubmitting the stored demo triple is
rejected, the store is unchanged, and the response still carries the
ranking. -/
theorem dedup_triple_rejects_witness :
    add_prediction_result false [demoRec1] "linkedin" "france" demoJobs "cv" (some "a.pdf")
        (some "candidate text") none none
      = .error "A similar prediction already exists based on the current criteria." ∧
    predictPersistAndRespond false [demoRec1] "linkedin" "france" 0 demoJobs "cv"
        (some "a.pdf") (some "candidate text") none none
      = ([demoRec1], { majority := 0, top_similar_jobs := demoJobs }) :=
  dedup_triple_rejects false [demoRec1] "linkedin" "france" demoJobs 0 "cv" (some "a.pdf")
    (some "candidate text") none none
    ⟨demoRec1, List.mem_cons_self demoRec1 [], by decide⟩

/-! ### Artifact round-trip (blob_service.py): path infrastructure -/

theorem string_data_inj {s t : String} (h : s.data = t.data) : s = t := by
  cases s
  cases t
  exact congrArg String.mk h

theorem string_ne_of_getLast {s t : String}
    (h : s.data.getLast? ≠ t.data.getLast?) : s ≠ t := by
  intro he
  exact h (he ▸ rfl)

theorem string_ne_of_head {s t : String}
    (h : s.data.head? ≠ t.data.head?) : s ≠ t := by
  intro he
  exact h (he ▸ rfl)

theorem joinPath_eq_iff (b f g : String) : joinPath b f = joinPath b g ↔ f = g := by
  constructor
  · intro h
    have h3 := congrArg String.data h
    simp only [joinPath, String.data_append, List.append_assoc] at h3
    exact string_data_inj (List.append_cancel_left (List.append_cancel_left h3))
  · rintro rfl
    rfl

theorem tempPath_head (platform region f : String) :
    (joinPath (tempBasePath platform region) f).data.head? = some 't' := by
  simp only [joinPath, tempBasePath, String.data_append, List.append_assoc]
  rw [List.head?_append_of_ne_nil _ (by decide)]
  decide

theorem finalPath_head (platform region f : String) :
    (joinPath (finalBasePath platform region) f).data.head? = some 'c' := by
  simp only [joinPath, finalBasePath, String.data_append, List.append_assoc]
  rw [List.head?_append_of_ne_nil _ (by decide)]
  decide

theorem tempPath_ne_finalPath (platform region platform2 region2 f g : String) :
    joinPath (tempBasePath platform region) f
      ≠ joinPath (finalBasePath platform2 region2) g := by
  apply string_ne_of_head
  rw [tempPath_head, finalPath_head]
  decide

theorem csvFileName_getLast (platform region : String) :
    (csvFileName platform region).data.getLast? = some 'v' := by
  simp only [csvFileName, String.data_append]
  rw [List.getLast?_append_of_ne_nil _ (by decide)]
  decide

theorem csvFileName_ne_of_getLast (platform region g : String)
    (h : g.data.getLast? ≠ some 'v') : csvFileName platform region ≠ g := by
  apply string_ne_of_getLast
  rw [csvFileName_getLast]
  exact fun he => h he.symm

theorem bundleFileNames_nodup (platform region : String) :
    (bundleFileNames platform region).Nodup := by
  have h1 : csvFileName platform region ≠ "kmeans_model.pkl" :=
    csvFileName_ne_of_getLast platform region _ (by decide)
  have h2 : csvFileName platform region ≠ "cluster_centers.npy" :=
    csvFileName_ne_of_getLast platform region _ (by decide)
  have h3 : csvFileName platform region ≠ "paragraph_embeddings.npy" :=
    csvFileName_ne_of_getLast platform region _ (by decide)
  have h4 : csvFileName platform region ≠ "labels.npy" :=
    csvFileName_ne_of_getLast platform region _ (by decide)
  have h5 : csvFileName platform region ≠ "RandomForest_model.pkl" :=
    csvFileName_ne_of_getLast platform region _ (by decide)
  have h6 : csvFileName platform region ≠ "SVM_model.pkl" :=
    csvFileName_ne_of_getLast platform region _ (by decide)
  have h7 : csvFileName platform region ≠ "LogisticRegression_model.pkl" :=
    csvFileName_ne_of_getLast platform region _ (by decide)
  have h8 : csvFileName platform region ≠ "KNN_model.pkl" :=
    csvFileName_ne_of_getLast platform region _ (by decide)
  have h9 : csvFileName platform region ≠ "GradientBoosting_model.pkl" :=
    csvFileName_ne_of_getLast platform region _ (by decide)
  simp [bundleFileNames, List.nodup_cons, h1, h2, h3, h4, h5, h6, h7, h8, h9,
    h1.symm, h2.symm, h3.symm, h4.symm, h5.symm, h6.symm, h7.symm, h8.symm, h9.symm]

/-! ### Artifact round-trip: store-evolution lemmas -/

theorem upload_lookup (st : Store) (k : String) (v : Bytes) (q : String) :
    uploadBlobFromBytes st k v q = if q = k then some v else st q := rfl

theorem delete_lookup (st : Store) (k q : String) :
    deleteBlob st k q = if q = k then none else st q := rfl

theorem promoteFile_moves (tb fb : String) (st : Store) (f : String) (v : Bytes)
    (hv : st (joinPath tb f) = some v) (hne : joinPath fb f ≠ joinPath tb f) :
    promoteFile tb fb st f (joinPath fb f) = some v := by
  simp [promoteFile, hv, upload_lookup, delete_lookup, hne]

theorem promoteFile_frame (tb fb : String) (st : Store) (f q : String)
    (h1 : q ≠ joinPath tb f) (h2 : q ≠ joinPath fb f) :
    promoteFile tb fb st f q = st q := by
  cases hv : st (joinPath tb f) with
  | none => simp [promoteFile, hv]
  | some v => simp [promoteFile, hv, upload_lookup, delete_lookup, h1, h2]

theorem foldl_promoteFile_frame (tb fb : String) :
    ∀ (files : List String) (st : Store) (q : String),
      (∀ g ∈ files, q ≠ joinPath tb g ∧ q ≠ joinPath fb g) →
      files.foldl (promoteFile tb fb) st q = st q := by
  intro files
  induction files with
  | nil => intro st q _; rfl
  | cons g gs ih =>
    intro st q h
    rw [List.foldl_cons,
      ih (promoteFile tb fb st g) q (fun g2 hg2 => h g2 (List.mem_cons_of_mem g hg2))]
    exact promoteFile_frame tb fb st g q (h g (List.mem_cons_self g gs)).1
      (h g (List.mem_cons_self g gs)).2

theorem foldl_promoteFile_moves (tb fb : String)
    (hdisj : ∀ g1 g2 : String, joinPath tb g1 ≠ joinPath fb g2)
    (hinjT : ∀ g1 g2 : String, joinPath tb g1 = joinPath tb g2 → g1 = g2)
    (hinjF : ∀ g1 g2 : String, joinPath fb g1 = joinPath fb g2 → g1 = g2) :
    ∀ (files : List String) (st : Store) (f : String) (v : Bytes),
      f ∈ files → files.Nodup → st (joinPath tb f) = some v →
      files.foldl (promoteFile tb fb) st (joinPath fb f) = some v := by
  intro files
  induction files with
  | nil => intro st f v hf _ _; cases hf
  | cons g gs ih =>
    intro st f v hf hnodup hv
    rw [List.foldl_cons]
    rcases List.mem_cons.mp hf with heq | hmem
    · subst heq
      have hnotin : f ∉ gs := (List.nodup_cons.mp hnodup).1
      rw [foldl_promoteFile_frame tb fb gs (promoteFile tb fb st f) (joinPath fb f)
        (fun g2 hg2 => ⟨fun he => hdisj g2 f he.symm,
          fun he => hnotin (hinjF f g2 he ▸ hg2)⟩)]
      exact promoteFile_moves tb fb st f v hv (fun he => hdisj f f he.symm)
    · have hg_ne_f : g ≠ f := by
        intro he
        subst he
        exact (List.nodup_cons.mp hnodup).1 hmem
      have hkeep : promoteFile tb fb st g (joinPath tb f) = some v := by
        rw [promoteFile_frame tb fb st g (joinPath tb f)
          (fun he => hg_ne_f (hinjT f g he).symm) (fun he => hdisj f g he)]
        exact hv
      exact ih (promoteFile tb fb st g) f v hmem (List.nodup_cons.mp hnodup).2 hkeep

/-- C8: staging a trained bundle (`save_model_data`), promoting it
(`finalize_model_data_transfer`) and loading it back (`retrieve_model_data`)
yields the numeric members — centroids, embeddings, labels — unchanged: the
store plumbing is the identity on them.  The numpy codec pair is assumed
inverse (`hNp`; np.load∘np.save is the library round-trip the spec's
"bit-exact" rests on), and the bundle carries the fixed five-classifier
roster, as every bundle produced by the trainer does. -/
theorem artifact_roundtrip {α : Type} (encJoblib encNp encCsv : α → Bytes)
    (decJoblib decNp decCsv : Bytes → α)
    (hNp : ∀ x, decNp (encNp x) = x)
    (st : Store) (platform region : String) (md : ModelData α)
    (hroster : md.supervised_models.map Prod.fst = supervisedRoster) :
    ∃ md2 : ModelData α,
      retrieve_model_data decJoblib decNp decCsv
          (finalize_model_data_transfer
            (save_model_data encJoblib encNp encCsv st platform region md)
            platform region).1 platform region
        = .ok md2 ∧
      md2.cluster_centers = md.cluster_centers ∧
      md2.paragraph_embeddings = md.paragraph_embeddings ∧
      md2.labels = md.labels := by
  obtain ⟨mk, mc, mp, ml, mdd, sup⟩ := md
  rcases sup with _ | ⟨⟨n1, m1⟩, sup⟩
  · simp [supervisedRoster] at hroster
  rcases sup with _ | ⟨⟨n2, m2⟩, sup⟩
  · simp [supervisedRoster] at hroster
  rcases sup with _ | ⟨⟨n3, m3⟩, sup⟩
  · simp [supervisedRoster] at hroster
  rcases sup with _ | ⟨⟨n4, m4⟩, sup⟩
  · simp [supervisedRoster] at hroster
  rcases sup with _ | ⟨⟨n5, m5⟩, sup⟩
  · simp [supervisedRoster] at hroster
  have hlen := congrArg List.length hroster
  simp only [List.map, List.length_cons, List.length_map, supervisedRoster,
    List.length_nil] at hlen
  have hsupnil : sup = [] := by
    rw [← List.length_eq_zero]
    omega
  subst hsupnil
  simp only [List.map, supervisedRoster, List.cons.injEq, and_true] at hroster
  obtain ⟨e1, e2, e3, e4, e5⟩ := hroster
  subst e1
  subst e2
  subst e3
  subst e4
  subst e5
  generalize hs1 : save_model_data encJoblib encNp encCsv st platform region
    ⟨mk, mc, mp, ml, mdd,
      [("RandomForest", m1), ("SVM", m2), ("LogisticRegression", m3),
       ("KNN", m4), ("GradientBoosting", m5)]⟩ = s1
  have hcv1 : csvFileName platform region ≠ "kmeans_model.pkl" :=
    csvFileName_ne_of_getLast platform region _ (by decide)
  have hcv2 : csvFileName platform region ≠ "cluster_centers.npy" :=
    csvFileName_ne_of_getLast platform region _ (by decide)
  have hcv3 : csvFileName platform region ≠ "paragraph_embeddings.npy" :=
    csvFileName_ne_of_getLast platform region _ (by decide)
  have hcv4 : csvFileName platform region ≠ "labels.npy" :=
    csvFileName_ne_of_getLast platform region _ (by decide)
  have hcv5 : csvFileName platform region ≠ "RandomForest_model.pkl" :=
    csvFileName_ne_of_getLast platform region _ (by decide)
  have hcv6 : csvFileName platform region ≠ "SVM_model.pkl" :=
    csvFileName_ne_of_getLast platform region _ (by decide)
  have hcv7 : csvFileName platform region ≠ "LogisticRegression_model.pkl" :=
    csvFileName_ne_of_getLast platform region _ (by decide)
  have hcv8 : csvFileName platform region ≠ "KNN_model.pkl" :=
    csvFileName_ne_of_getLast platform region _ (by decide)
  have hcv9 : csvFileName platform region ≠ "GradientBoosting_model.pkl" :=
    csvFileName_ne_of_getLast platform region _ (by decide)
  have hT :
      s1 (joinPath (tempBasePath platform region) "kmeans_model.pkl")
        = some (encJoblib mk) ∧
      s1 (joinPath (tempBasePath platform region) "cluster_centers.npy")
        = some (encNp mc) ∧
      s1 (joinPath (tempBasePath platform region) "paragraph_embeddings.npy")
        = some (encNp mp) ∧
      s1 (joinPath (tempBasePath platform region) "labels.npy")
        = some (encNp ml) ∧
      s1 (joinPath (tempBasePath platform region) (csvFileName platform region))
        = some (encCsv mdd) ∧
      s1 (joinPath (tempBasePath platform region) "RandomForest_model.pkl")
        = some (encJoblib m1) ∧
      s1 (joinPath (tempBasePath platform region) "SVM_model.pkl")
        = some (encJoblib m2) ∧
      s1 (joinPath (tempBasePath platform region) "LogisticRegression_model.pkl")
        = some (encJoblib m3) ∧
      s1 (joinPath (tempBasePath platform region) "KNN_model.pkl")
        = some (encJoblib m4) ∧
      s1 (joinPath (tempBasePath platform region) "GradientBoosting_model.pkl")
        = some (encJoblib m5) := by
    rw [← hs1]
    refine ⟨?_, ?_, ?_, ?_, ?_, ?_, ?_, ?_, ?_, ?_⟩ <;>
      simp [save_model_data, upload_lookup, joinPath_eq_iff, List.foldl_cons,
        List.foldl_nil, hcv1, hcv2, hcv3, hcv4, hcv5, hcv6, hcv7, hcv8, hcv9,
        hcv1.symm, hcv2.symm, hcv3.symm, hcv4.symm, hcv5.symm, hcv6.symm,
        hcv7.symm, hcv8.symm, hcv9.symm]
  obtain ⟨hT1, hT2, hT3, hT4, hT5, hT6, hT7, hT8, hT9, hT10⟩ := hT
  have hfold : (finalize_model_data_transfer s1 platform region).1
      = (bundleFileNames platform region).foldl
        (promoteFile (tempBasePath platform region) (finalBasePath platform region))
        s1 := rfl
  have hmoves := foldl_promoteFile_moves (tempBasePath platform region)
    (finalBasePath platform region)
    (fun g1 g2 => tempPath_ne_finalPath platform region platform region g1 g2)
    (fun g1 g2 h => (joinPath_eq_iff _ g1 g2).mp h)
    (fun g1 g2 h => (joinPath_eq_iff _ g1 g2).mp h)
    (bundleFileNames platform region)
  have hnodup := bundleFileNames_nodup platform region
  have hF1 : (finalize_model_data_transfer s1 platform region).1
      (joinPath (finalBasePath platform region) "kmeans_model.pkl")
      = some (encJoblib mk) := by
    rw [hfold]
    exact hmoves s1 _ _ (by simp [bundleFileNames]) hnodup hT1
  have hF2 : (finalize_model_data_transfer s1 platform region).1
      (joinPath (finalBasePath platform region) "cluster_centers.npy")
      = some (encNp mc) := by
    rw [hfold]
    exact hmoves s1 _ _ (by simp [bundleFileNames]) hnodup hT2
  have hF3 : (finalize_model_data_transfer s1 platform region).1
      (joinPath (finalBasePath platform region) "paragraph_embeddings.npy")
      = some (encNp mp) := by
    rw [hfold]
    exact hmoves s1 _ _ (by simp [bundleFileNames]) hnodup hT3
  have hF4 : (finalize_model_data_transfer s1 platform region).1
      (joinPath (finalBasePath platform region) "labels.npy")
      = some (encNp ml) := by
    rw [hfold]
    exact hmoves s1 _ _ (by simp [bundleFileNames]) hnodup hT4
  have hF5 : (finalize_model_data_transfer s1 platform region).1
      (joinPath (finalBasePath platform region) (csvFileName platform region))
      = some (encCsv mdd) := by
    rw [hfold]
    exact hmoves s1 _ _ (by simp [bundleFileNames]) hnodup hT5
  have hF6 : (finalize_model_data_transfer s1 platform region).1
      (joinPath (finalBasePath platform region) "RandomForest_model.pkl")
      = some (encJoblib m1) := by
    rw [hfold]
    exact hmoves s1 _ _ (by simp [bundleFileNames]) hnodup hT6
  have hF7 : (finalize_model_data_transfer s1 platform region).1
      (joinPath (finalBasePath platform region) "SVM_model.pkl")
      = some (encJoblib m2) := by
    rw [hfold]
    exact hmoves s1 _ _ (by simp [bundleFileNames]) hnodup hT7
  have hF8 : (finalize_model_data_transfer s1 platform region).1
      (joinPath (finalBasePath platform region) "LogisticRegression_model.pkl")
      = some (encJoblib m3) := by
    rw [hfold]
    exact hmoves s1 _ _ (by simp [bundleFileNames]) hnodup hT8
  have hF9 : (finalize_model_data_transfer s1 platform region).1
      (joinPath (finalBasePath platform region) "KNN_model.pkl")
      = some (encJoblib m4) := by
    rw [hfold]
    exact hmoves s1 _ _ (by simp [bundleFileNames]) hnodup hT9
  have hF10 : (finalize_model_data_transfer s1 platform region).1
      (joinPath (finalBasePath platform region) "GradientBoosting_model.pkl")
      = some (encJoblib m5) := by
    rw [hfold]
    exact hmoves s1 _ _ (by simp [bundleFileNames]) hnodup hT10
  refine ⟨⟨decJoblib (encJoblib mk), decNp (encNp mc), decNp (encNp mp),
      decNp (encNp ml), decCsv (encCsv mdd),
      [("RandomForest", decJoblib (encJoblib m1)), ("SVM", decJoblib (encJoblib m2)),
       ("LogisticRegression", decJoblib (encJoblib m3)),
       ("KNN", decJoblib (encJoblib m4)),
       ("GradientBoosting", decJoblib (encJoblib m5))]⟩,
    ?_, hNp mc, hNp mp, hNp ml⟩
  simp [retrieve_model_data, downloadBlobToBytes, hF1, hF2, hF3, hF4, hF5,
    hF6, hF7, hF8, hF9, hF10, Except.bind, bind]

/-- C8 witness: the round-trip at a concrete bundle over identity codecs on
the empty store. -/
theorem artifact_roundtrip_witness :
    ∃ md2 : ModelData Bytes,
      retrieve_model_data id id id
          (finalize_model_data_transfer
            (save_model_data id id id emptyStore "linkedin" "france" mdDemo)
            "linkedin" "france").1 "linkedin" "france"
        = .ok md2 ∧
      md2.cluster_centers = mdDemo.cluster_centers ∧
      md2.paragraph_embeddings = mdDemo.paragraph_embeddings ∧
      md2.labels = mdDemo.labels :=
  artifact_roundtrip id id id id id id (fun x => rfl) emptyStore "linkedin" "france"
    mdDemo rfl

end AlternanceBackend
